import Mathlib

set_option autoImplicit false

/-!
Shallow embedding of the fallback/orchestration core of the offline
speech-to-speech translation app (src/app.py): the text-translation
fallback (`translate_text`), the multi-backend TTS fallback chain with
temp-file handling (`speak_text`, `ms_speak`), and the `/translate`
route handler.  External collaborators (the translation engine, the TTS
backends, playback, the recognizer) are modelled as oracles supplied in
an environment record; the filesystem fragment touched by synthesis is
modelled as a finite map from path to size.
-/

namespace App

/-- A record of one invocation of an installed translation capability:
`(fromCode, toCode, inputText)` for one `get_translation`+`translate`
call pair on the argostranslate objects. -/
abbrev Call := String × String × String

/-- Environment for `translate_text` (app.py lines 138-186): the set of
installed language codes (the keys of the process-wide `lang_dict`) and
an oracle giving the outcome of invoking the installed translation
capability from one code to another on a text.  `Except.error e` models
a Python exception (message `e`) raised by `get_translation` or
`translate`. -/
structure TransEnv where
  installed : List String
  tr : String → String → String → Except String String

/-- Model of the body of the outer `try` of `translate_text` (app.py
lines 146-182).  The first component is `Except.error de` exactly when a
Python exception propagates out of that `try` body (the
`raise direct_error` at line 182); the second component records every
translation-capability invocation, in order.  The two missing-language
checks (lines 148-153) return strings normally, so they are `ok` here;
a missing pivot entry (the `KeyError` from the `lang_dict` lookup at
line 169) aborts the two-hop block without invoking any capability and
is caught at line 178, after which the direct error is re-raised. -/
def translate_core (env : TransEnv) (text source target : String) :
    Except String String × List Call :=
  if source ∉ env.installed then
    (.ok ("[Translation failed: " ++ source ++ " language not installed]"), [])
  else if target ∉ env.installed then
    (.ok ("[Translation failed: " ++ target ++ " language not installed]"), [])
  else
    match env.tr source target text with
    | .ok r => (.ok r, [(source, target, text)])
    | .error de =>
      if source ≠ "en" ∧ target ≠ "en" then
        if "en" ∈ env.installed then
          match env.tr source "en" text with
          | .ok mid =>
            match env.tr "en" target mid with
            | .ok r =>
              (.ok r, [(source, target, text), (source, "en", text), ("en", target, mid)])
            | .error _ =>
              (.error de, [(source, target, text), (source, "en", text), ("en", target, mid)])
          | .error _ => (.error de, [(source, target, text), (source, "en", text)])
        else
          (.error de, [(source, target, text)])
      else
        (.error de, [(source, target, text)])

/-- Model of `translate_text` (app.py lines 138-186): the string the
Python function returns to its caller, paired with the ordered list of
translation-capability invocations it performed. -/
def translate_text (env : TransEnv) (text source target : String) : String × List Call :=
  if text = "" then ("No text recognized", [])
  else if source = target then (text, [])
  else
    match translate_core env text source target with
    | (.ok r, cs) => (r, cs)
    | (.error e, cs) => ("[Translation Failed: " ++ e ++ "]", cs)

/-- Exception-level model of the whole of `translate_text`: the result
is `Except.error` exactly when a Python exception would propagate out of
`translate_text` to its caller.  The `except` at app.py lines 184-186
converts every exception escaping the `try` body into a returned string,
and the guard lines 140-144 cannot raise. -/
def translate_text_sem (env : TransEnv) (text source target : String) :
    Except String (String × List Call) :=
  if text = "" then .ok ("No text recognized", [])
  else if source = target then .ok (text, [])
  else
    match translate_core env text source target with
    | (.ok r, cs) => .ok (r, cs)
    | (.error e, cs) => .ok ("[Translation Failed: " ++ e ++ "]", cs)

/-- Model of the two-hop pivot block (app.py lines 166-177) in
isolation: translate source to "en", then "en" to target.  A missing
"en" entry models the `KeyError` raised by the `lang_dict` lookup before
any capability is invoked. -/
def pivotRun (env : TransEnv) (text source target : String) : Except String String :=
  if "en" ∈ env.installed then
    match env.tr source "en" text with
    | .ok mid => env.tr "en" target mid
    | .error e => .error e
  else
    .error "KeyError: en"

/-- The filesystem fragment relevant to synthesis: a finite map from
path to file size, kept as an association list with the most recent
write first.  The stored size abstracts the byte count (only existence
and the 1000-byte threshold matter to the code). -/
abbrev FS := List (String × Nat)

/-- Create-or-truncate write of a file of size `n` at path `p`. -/
def fsWrite (fs : FS) (p : String) (n : Nat) : FS :=
  (p, n) :: fs.filter (fun e => e.1 != p)

/-- Model of `os.unlink` / `os.remove` for path `p` (no-op when absent,
matching the guarded cleanup at app.py lines 320-321). -/
def fsRemove (fs : FS) (p : String) : FS :=
  fs.filter (fun e => e.1 != p)

/-- Size of the file at `p`, or `none` when no such file exists. -/
def fsSize (fs : FS) (p : String) : Option Nat :=
  (fs.find? (fun e => e.1 == p)).map (fun e => e.2)

/-- The artifact check used by every backend attempt:
`os.path.exists(p) and os.path.getsize(p) > 1000` (app.py lines 262,
292 and 391). -/
def checkWav (fs : FS) (p : String) : Bool :=
  match fsSize fs p with
  | some n => decide (1000 < n)
  | none => false

/-- Environment for one `speak_text` call (app.py lines 188-330): the
fresh temporary file names handed out by `tempfile.NamedTemporaryFile`,
and the behaviour of each backend and of playback.
* `sapiWrites`: the size the SAPI file stream leaves at the wav path
  inside `ms_speak` (`none`: no file written); `sapiRaises`: an
  exception inside `ms_speak` (caught there, returning `False`).
* `espeakRunRaises`: `subprocess.run` itself raises (for example the
  eSpeak executable is missing), so the process never ran, nothing was
  written, and the `os.unlink` of the text file at line 255 is skipped;
  `espeakRC`: the process return code (nonzero raises at line 259);
  `espeakWrites`: the size eSpeak leaves at the wav path when the
  process ran.
* `py3Raises` / `py3Writes`: likewise for the pyttsx3 attempt (an
  engine exception, and the size `save_to_file`+`runAndWait` leave at
  the wav path).
* `playRaises`: pygame playback raises (caught at lines 314-316,
  resetting `tts_success`). -/
structure TTSEnv where
  wavName : String
  txtName : String
  sapiRaises : Bool
  sapiWrites : Option Nat
  espeakRunRaises : Bool
  espeakRC : Nat
  espeakWrites : Option Nat
  py3Raises : Bool
  py3Writes : Option Nat
  playRaises : Bool

/-- Model of `ms_speak` (app.py lines 332-397) applied to the temp wav
path: the SAPI stream may leave a file at the path; on an internal
exception the function returns `False` (lines 395-397); otherwise it
returns the artifact-existence plus size check of line 391. -/
def ms_speak (env : TTSEnv) (fs : FS) : Bool × FS :=
  let fs1 := match env.sapiWrites with
    | some n => fsWrite fs env.wavName n
    | none => fs
  if env.sapiRaises then (false, fs1) else (checkWav fs1 env.wavName, fs1)

/-- Model of the eSpeak fallback branch (app.py lines 222-267), entered
only when the Microsoft attempt did not succeed: write `text` to a
fresh temp text file (line 228-231), run the eSpeak process, unlink the
text file (line 255) only on the non-raising path, raise on a nonzero
return code (caught at line 266), and otherwise check the wav artifact
(line 262). -/
def espeakStep (env : TTSEnv) (text : String) (fs : FS) : Bool × FS :=
  let fs1 := fsWrite fs env.txtName text.length
  if env.espeakRunRaises then
    (false, fs1)
  else
    let fs2 := match env.espeakWrites with
      | some n => fsWrite fs1 env.wavName n
      | none => fs1
    let fs3 := fsRemove fs2 env.txtName
    if env.espeakRC ≠ 0 then (false, fs3)
    else (checkWav fs3 env.wavName, fs3)

/-- Model of the pyttsx3 fallback branch (app.py lines 270-296). -/
def py3Step (env : TTSEnv) (fs : FS) : Bool × FS :=
  let fs1 := match env.py3Writes with
    | some n => fsWrite fs env.wavName n
    | none => fs
  if env.py3Raises then (false, fs1) else (checkWav fs1 env.wavName, fs1)

/-- State of the fallback chain after temp-wav creation (line 200-202,
an empty file at the wav path) and the Microsoft attempt: the pair of
`tts_success` and the filesystem. -/
def msAfter (env : TTSEnv) (fs : FS) : Bool × FS :=
  ms_speak env (fsWrite fs env.wavName 0)

/-- State after the eSpeak stage: the branch runs only when the
Microsoft attempt did not succeed (app.py line 222). -/
def espeakAfter (env : TTSEnv) (text : String) (fs : FS) : Bool × FS :=
  let m := msAfter env fs
  if m.1 then m else espeakStep env text m.2

/-- State after the pyttsx3 stage: the branch runs only when the two
earlier attempts did not succeed (app.py line 270). -/
def py3After (env : TTSEnv) (text : String) (fs : FS) : Bool × FS :=
  let e := espeakAfter env text fs
  if e.1 then e else py3Step env e.2

/-- Observable outcome of one `speak_text` call.  `ret = none` models
the bare `return` on empty text (line 195), otherwise `ret = some b` is
the returned `tts_success`; `fs` is the filesystem when the function
returns; the three attempt flags record which backends were invoked;
`synthSuccess` is `tts_success` before playback (so playback is
attempted exactly when it holds); `printedFallback` is the console
fallback of lines 326-328, carrying `(lang, text)`. -/
structure SpeakOut where
  ret : Option Bool
  fs : FS
  msAttempted : Bool
  espeakAttempted : Bool
  py3Attempted : Bool
  synthSuccess : Bool
  printedFallback : Option (String × String)
  deriving DecidableEq

/-- Model of `speak_text` (app.py lines 188-330): the guard on empty
text, the temp-wav creation, the ordered backend chain, playback (which
on an exception resets `tts_success`, line 316), the cleanup of the wav
temp file (lines 318-323) and the console fallback (lines 326-328). -/
def speak_text (env : TTSEnv) (text lang : String) (fs : FS) : SpeakOut :=
  if text = "" then
    { ret := none, fs := fs, msAttempted := false, espeakAttempted := false,
      py3Attempted := false, synthSuccess := false, printedFallback := none }
  else
    let m := msAfter env fs
    let e := espeakAfter env text fs
    let p := py3After env text fs
    let tts := p.1 && !env.playRaises
    { ret := some tts,
      fs := fsRemove p.2 env.wavName,
      msAttempted := true,
      espeakAttempted := !m.1,
      py3Attempted := !m.1 && !e.1,
      synthSuccess := p.1,
      printedFallback := if tts then none else some (lang, text) }

/-- The language-name table of app.py lines 33-40. -/
def LANGUAGES : List (String × String) :=
  [("English", "en"), ("Hindi", "hi"), ("Spanish", "es"),
   ("German", "de"), ("Japanese", "ja"), ("Chinese", "zh")]

/-- The recognition-model path table of app.py lines 42-49. -/
def MODEL_PATHS : List (String × String) :=
  [("en", "models/vosk-model-small-en-us-0.15"),
   ("hi", "models/vosk-model-small-hi-0.22"),
   ("es", "models/vosk-model-small-es-0.42"),
   ("de", "models/vosk-model-de-0.21"),
   ("ja", "models/vosk-model-small-ja-0.22"),
   ("zh", "models/vosk-model-small-cn-0.22")]

/-- Dictionary lookup on the two configuration tables; `none` models a
Python `KeyError` (caught only by the outer handler of the route). -/
def lookupTbl (tbl : List (String × String)) (k : String) : Option String :=
  (tbl.find? (fun e => e.1 == k)).map (fun e => e.2)

/-- The response payloads the `/translate` route can produce (app.py
lines 403-480): a bare error object (lines 419, 428 and 480), the
error-with-recognized-text object of lines 456-460 (reachable only on
an exception from translation or synthesis), the missing-models object
of lines 470-475, and the success object of lines 448-451. -/
inductive RouteResponse where
  | err (msg : String)
  | errRec (msg recognized : String)
  | missingModels (msg recognized : String) (missing : List String)
  | success (recognized translated : String)
  deriving DecidableEq

/-- Environment for one `/translate` request: the posted language
names, the recognition-model state (`modelFileExists` is
`os.path.exists` on model paths, `modelLoadOk`/`modelLoadErr` the
outcome of the `vosk.Model` constructor), the text the recognizer
produces once capture runs, and the translation and synthesis
environments plus the filesystem handed to `speak_text`. -/
structure RouteEnv where
  sourceName : String
  targetName : String
  modelFileExists : String → Bool
  modelLoadOk : Bool
  modelLoadErr : String
  recognized : String
  tenv : TransEnv
  senv : TTSEnv
  fs : FS

/-- Observable outcome of one `/translate` request: the JSON payload,
whether audio capture/recognition ran (`recognize_speech`, app.py line
432), the translation-capability invocations performed, and the
`speak_text` outcome when synthesis was reached. -/
structure RouteOut where
  resp : RouteResponse
  captured : Bool
  transCalls : List Call
  speakOut : Option SpeakOut
  deriving DecidableEq

/-- The `missing_models` list built at app.py lines 462-466: the
source side first, then the target side, each present exactly when its
code is absent from `lang_dict`. -/
def missingList (env : RouteEnv) (sc tc : String) : List String :=
  (if sc ∈ env.tenv.installed then []
   else [env.sourceName ++ " (" ++ sc ++ ")"]) ++
  (if tc ∈ env.tenv.installed then []
   else [env.targetName ++ " (" ++ tc ++ ")"])

/-- Model of the `/translate` route handler (app.py lines 403-480).
The exact rendering of a `KeyError` by the outer handler at line 480 is
abstracted to a fixed message (no claim depends on it); the
`errRec` branch of lines 453-460 is unreachable here because the
`translate_text` and `speak_text` models are total, mirroring the fact
that both Python functions catch their own exceptions. -/
def translate_route (env : RouteEnv) : RouteOut :=
  match lookupTbl LANGUAGES env.sourceName, lookupTbl LANGUAGES env.targetName with
  | some sc, some tc =>
    match lookupTbl MODEL_PATHS sc with
    | some mp =>
      if !(env.modelFileExists mp) then
        { resp := .err ("Model for " ++ env.sourceName ++ " not found at " ++ mp ++ "!"),
          captured := false, transCalls := [], speakOut := none }
      else if !env.modelLoadOk then
        { resp := .err ("Failed to create model: " ++ env.modelLoadErr),
          captured := false, transCalls := [], speakOut := none }
      else
        -- recognize_speech runs here (line 432): audio is captured and
        -- env.recognized is the finalized utterance, BEFORE the
        -- translation-capability check of line 439.
        if sc ∈ env.tenv.installed ∧ tc ∈ env.tenv.installed then
          let t := translate_text env.tenv env.recognized sc tc
          let so := speak_text env.senv t.1 tc env.fs
          { resp := .success env.recognized t.1,
            captured := true, transCalls := t.2, speakOut := some so }
        else
          let missing := missingList env sc tc
          { resp := .missingModels
              ("Missing translation models for: " ++ String.intercalate ", " missing)
              env.recognized missing,
            captured := true, transCalls := [], speakOut := none }
    | none =>
      { resp := .err "Error in translation route: KeyError", captured := false,
        transCalls := [], speakOut := none }
  | _, _ =>
    { resp := .err "Error in translation route: KeyError", captured := false,
      transCalls := [], speakOut := none }

/-! Theorems about the translation fallback (`translate_text`). -/

/-- Translation environment with English and Hindi installed and a
capability oracle that always fails. -/
def envAllFailTr : TransEnv :=
  { installed := ["en", "hi"], tr := fun _ _ _ => .error "x" }

/-- C3 counterexample: with English and Hindi installed, empty input
makes `translate_text` return the literal placeholder
"No text recognized", which is not the empty string the claim says is
returned as the successful result. -/
theorem translate_text_empty_cex :
    (translate_text envAllFailTr "" "en" "hi").1 = "No text recognized" ∧
    (translate_text envAllFailTr "" "en" "hi").1 ≠ "" := by
  constructor
  · rfl
  · decide

/-- C3 (amended): for every environment and every source and target,
`translate_text` on empty text immediately returns the fixed
placeholder string "No text recognized", invoking no translation
capability (the call list is empty, and the result does not depend on
the capability oracle at all). -/
theorem translate_text_empty_returns_placeholder
    (env : TransEnv) (source target : String) :
    translate_text env "" source target = ("No text recognized", []) := by
  simp [translate_text]

/-- C8: identity law — for every environment, every non-empty text and
every pair with source equal to target, `translate_text` returns the
text itself and invokes no translation capability. -/
theorem translate_text_identity (env : TransEnv) (text source target : String)
    (htext : text ≠ "") (heq : source = target) :
    translate_text env text source target = (text, []) := by
  simp [translate_text, htext, heq]

/-- C8 witness: the identity law evaluated on a concrete environment
with an always-failing capability oracle. -/
theorem translate_text_identity_witness :
    translate_text envAllFailTr "hola" "es" "es" = ("hola", []) :=
  translate_text_identity envAllFailTr "hola" "es" "es" (by decide) rfl

/-- C10: no exception escapes `translate_text`: in the exception-level
model, where `Except.error` marks a Python exception propagating to the
caller, the function always returns `ok` — every failure on the direct
or pivot path is converted into a returned failure string by the
handler at app.py lines 184-186. -/
theorem translate_text_never_raises (env : TransEnv) (text source target : String) :
    (translate_text_sem env text source target).isOk = true := by
  unfold translate_text_sem
  by_cases h1 : text = "" <;> simp only [h1, if_true, if_false, Except.isOk]
  · rfl
  · by_cases h2 : source = target <;> simp only [h2, if_true, if_false]
    · rfl
    · rcases translate_core env text source target with ⟨res, cs⟩
      cases res <;> rfl

/-- C4: when the direct attempt fails with error `de` and the two-hop
pivot attempt also fails (or is inapplicable because source or target is
the pivot "en"), `translate_text` returns the bracketed failure string
carrying the original direct-attempt error `de`, never the pivot error
(the `raise direct_error` of app.py line 182 caught at lines 184-186). -/
theorem translate_text_surfaces_direct_error (env : TransEnv)
    (text source target de : String)
    (htext : text ≠ "") (hne : source ≠ target)
    (hs : source ∈ env.installed) (ht : target ∈ env.installed)
    (hdirect : env.tr source target text = .error de)
    (hpivot : source = "en" ∨ target = "en" ∨
      (pivotRun env text source target).isOk = false) :
    (translate_text env text source target).1 =
      "[Translation Failed: " ++ de ++ "]" := by
  unfold translate_text translate_core
  rw [if_neg htext, if_neg hne, if_neg (not_not_intro hs), if_neg (not_not_intro ht)]
  simp only [hdirect]
  by_cases hcond : source ≠ "en" ∧ target ≠ "en"
  · simp only [if_pos hcond]
    by_cases hen : "en" ∈ env.installed
    · simp only [if_pos hen]
      cases hpm : env.tr source "en" text with
      | error e1 => simp only [hpm]
      | ok mid =>
        cases hpt : env.tr "en" target mid with
        | error e2 => simp only [hpm, hpt]
        | ok r =>
          exfalso
          rcases hpivot with h | h | h
          · exact hcond.1 h
          · exact hcond.2 h
          · unfold pivotRun at h
            rw [if_pos hen, hpm] at h
            simp only [hpt, Except.isOk, Except.toBool] at h
            exact Bool.noConfusion h
    · simp only [if_neg hen]
  · simp only [if_neg hcond]

/-- C4 witness: both source and target are installed, the direct
attempt fails, and the pivot is unavailable (English not installed, so
the pivot path fails at the dictionary lookup); the surfaced error is
the direct one. -/
theorem translate_text_surfaces_direct_error_witness :
    (translate_text { installed := ["es", "de"], tr := fun _ _ _ => .error "down" }
        "hallo" "es" "de").1 = "[Translation Failed: " ++ "down" ++ "]" :=
  translate_text_surfaces_direct_error
    { installed := ["es", "de"], tr := fun _ _ _ => .error "down" }
    "hallo" "es" "de" "down" (by decide) (by decide) (by decide) (by decide) rfl
    (Or.inr (Or.inr (by decide)))

/-- Translation environment refuting the pivot-trigger claim: Hindi and
Spanish are installed but English (the pivot) is not, and the direct
capability fails. -/
def envNoPivot : TransEnv :=
  { installed := ["hi", "es"], tr := fun _ _ _ => .error "down" }

/-- C6 counterexample: the trigger of the claim holds — the direct
attempt failed (the result carries its error) and both sides differ
from the pivot "en" — yet no pivot translation is invoked: the
recorded capability calls are exactly the single direct call, because
the two-hop block aborts at the `lang_dict` lookup of the uninstalled
pivot (app.py line 169, a `KeyError` caught at line 178) before any
source-to-pivot translation can run.  So "attempted exactly when the
direct attempt has failed and source != pivot and target != pivot",
read as invoking the source-to-pivot translation, is false. -/
theorem translate_text_pivot_not_invoked_without_pivot_cex :
    ("hi" : String) ≠ "en" ∧ ("es" : String) ≠ "en" ∧
    envNoPivot.tr "hi" "es" "namaste" = .error "down" ∧
    translate_text envNoPivot "namaste" "hi" "es" =
      ("[Translation Failed: " ++ "down" ++ "]", [("hi", "es", "namaste")]) := by
  refine ⟨by decide, by decide, rfl, ?_⟩
  rfl

/-- C6 (amended): complete description of the pivot path over the
recorded capability invocations.  Under non-empty text, distinct
installed source and target, the six cases below are exhaustive, and a
pivot capability is invoked exactly in the last three: the direct
attempt must have failed, both sides must differ from the pivot "en",
AND the pivot itself must be installed (otherwise the two-hop block
aborts at the `lang_dict` lookup with no pivot call).  When invoked,
the code translates source to "en" and, when that hop succeeds, feeds
the intermediate result into "en" to target; when both hops succeed
the chained result is returned as the success value, and in every
failing case the direct error is surfaced. -/
theorem translate_text_pivot_path (env : TransEnv)
    (text source target : String)
    (htext : text ≠ "") (hne : source ≠ target)
    (hs : source ∈ env.installed) (ht : target ∈ env.installed) :
    (∀ r, env.tr source target text = .ok r →
      translate_text env text source target = (r, [(source, target, text)])) ∧
    (∀ de, env.tr source target text = .error de →
      (source = "en" ∨ target = "en") →
      translate_text env text source target =
        ("[Translation Failed: " ++ de ++ "]", [(source, target, text)])) ∧
    (∀ de, env.tr source target text = .error de →
      source ≠ "en" → target ≠ "en" → "en" ∉ env.installed →
      translate_text env text source target =
        ("[Translation Failed: " ++ de ++ "]", [(source, target, text)])) ∧
    (∀ de e1, env.tr source target text = .error de →
      source ≠ "en" → target ≠ "en" → "en" ∈ env.installed →
      env.tr source "en" text = .error e1 →
      translate_text env text source target =
        ("[Translation Failed: " ++ de ++ "]",
         [(source, target, text), (source, "en", text)])) ∧
    (∀ de mid e2, env.tr source target text = .error de →
      source ≠ "en" → target ≠ "en" → "en" ∈ env.installed →
      env.tr source "en" text = .ok mid → env.tr "en" target mid = .error e2 →
      translate_text env text source target =
        ("[Translation Failed: " ++ de ++ "]",
         [(source, target, text), (source, "en", text), ("en", target, mid)])) ∧
    (∀ de mid r, env.tr source target text = .error de →
      source ≠ "en" → target ≠ "en" → "en" ∈ env.installed →
      env.tr source "en" text = .ok mid → env.tr "en" target mid = .ok r →
      translate_text env text source target =
        (r, [(source, target, text), (source, "en", text), ("en", target, mid)])) := by
  refine ⟨?_, ?_, ?_, ?_, ?_, ?_⟩
  · intro r hdir
    unfold translate_text translate_core
    rw [if_neg htext, if_neg hne, if_neg (not_not_intro hs), if_neg (not_not_intro ht)]
    simp only [hdir]
  · intro de hdir hor
    have hcond : ¬ (source ≠ "en" ∧ target ≠ "en") := by
      rcases hor with h | h
      · exact fun hc => hc.1 h
      · exact fun hc => hc.2 h
    unfold translate_text translate_core
    rw [if_neg htext, if_neg hne, if_neg (not_not_intro hs), if_neg (not_not_intro ht)]
    simp only [hdir, if_neg hcond]
  · intro de hdir hsen hten hen
    unfold translate_text translate_core
    rw [if_neg htext, if_neg hne, if_neg (not_not_intro hs), if_neg (not_not_intro ht)]
    simp only [hdir, if_pos (And.intro hsen hten), if_neg hen]
  · intro de e1 hdir hsen hten hen h1
    unfold translate_text translate_core
    rw [if_neg htext, if_neg hne, if_neg (not_not_intro hs), if_neg (not_not_intro ht)]
    simp only [hdir, if_pos (And.intro hsen hten), if_pos hen, h1]
  · intro de mid e2 hdir hsen hten hen h1 h2
    unfold translate_text translate_core
    rw [if_neg htext, if_neg hne, if_neg (not_not_intro hs), if_neg (not_not_intro ht)]
    simp only [hdir, if_pos (And.intro hsen hten), if_pos hen, h1, h2]
  · intro de mid r hdir hsen hten hen h1 h2
    unfold translate_text translate_core
    rw [if_neg htext, if_neg hne, if_neg (not_not_intro hs), if_neg (not_not_intro ht)]
    simp only [hdir, if_pos (And.intro hsen hten), if_pos hen, h1, h2]

/-- Translation environment for the C6 witness: direct Hindi-to-Spanish
always fails, while the two pivot hops through English succeed and tag
their outputs. -/
def envPivot : TransEnv :=
  { installed := ["hi", "es", "en"],
    tr := fun f t s =>
      if f = "hi" ∧ t = "es" then .error "nodirect"
      else if f = "hi" ∧ t = "en" then .ok ("E:" ++ s)
      else if f = "en" ∧ t = "es" then .ok ("S:" ++ s)
      else .error "other" }

/-- C6 witness: the pivot-path description evaluated on `envPivot`; its
last conjunct yields the chained pivot result for Hindi to Spanish,
with all three capability invocations recorded. -/
theorem translate_text_pivot_path_witness :
    translate_text envPivot "namaste" "hi" "es" =
      ("S:" ++ ("E:" ++ "namaste"),
       [("hi", "es", "namaste"), ("hi", "en", "namaste"), ("en", "es", "E:" ++ "namaste")]) :=
  (translate_text_pivot_path envPivot "namaste" "hi" "es"
      (by decide) (by decide) (by decide) (by decide)).2.2.2.2.2
    "nodirect" ("E:" ++ "namaste") ("S:" ++ ("E:" ++ "namaste"))
    rfl (by decide) (by decide) (by decide) rfl rfl

/-! Theorems about the synthesis fallback chain (`speak_text`). -/

/-- Bool helper: the right conjunct of a true conjunction is true. -/
theorem and_chain {a b : Bool} (h : (a && b) = true) : b = true := by
  cases a <;> cases b <;> simp_all

/-- The Microsoft attempt succeeds exactly when no exception occurred
inside `ms_speak` and the wav artifact passes the size check (app.py
line 391). -/
theorem ms_speak_spec (env : TTSEnv) (fs : FS) :
    (ms_speak env fs).1 =
      (!env.sapiRaises && checkWav (ms_speak env fs).2 env.wavName) := by
  obtain ⟨wav, txt, sr, sw, er, rc, ew, pr, pw, plr⟩ := env
  cases sr <;> simp [ms_speak]

/-- The eSpeak attempt succeeds exactly when the process ran, exited
with code 0, and the wav artifact passes the size check (app.py lines
257-263). -/
theorem espeakStep_spec (env : TTSEnv) (text : String) (fs : FS) :
    (espeakStep env text fs).1 =
      (!env.espeakRunRaises && (env.espeakRC == 0) &&
        checkWav (espeakStep env text fs).2 env.wavName) := by
  obtain ⟨wav, txt, sr, sw, er, rc, ew, pr, pw, plr⟩ := env
  cases er
  · by_cases hrc : rc = 0 <;> simp [espeakStep, hrc]
  · simp [espeakStep]

/-- The pyttsx3 attempt succeeds exactly when no engine exception
occurred and the wav artifact passes the size check (app.py lines
291-294). -/
theorem py3Step_spec (env : TTSEnv) (fs : FS) :
    (py3Step env fs).1 =
      (!env.py3Raises && checkWav (py3Step env fs).2 env.wavName) := by
  obtain ⟨wav, txt, sr, sw, er, rc, ew, pr, pw, plr⟩ := env
  cases pr <;> simp [py3Step]

/-- Success flag after the Microsoft stage, characterized. -/
theorem msAfter_spec (env : TTSEnv) (fs : FS) :
    (msAfter env fs).1 =
      (!env.sapiRaises && checkWav (msAfter env fs).2 env.wavName) := by
  unfold msAfter
  exact ms_speak_spec env _

/-- Success after the eSpeak stage implies the wav artifact passes the
size check at that point. -/
theorem espeakAfter_check (env : TTSEnv) (text : String) (fs : FS) :
    (espeakAfter env text fs).1 = true →
      checkWav (espeakAfter env text fs).2 env.wavName = true := by
  unfold espeakAfter
  cases hm : (msAfter env fs).1 <;> simp only [hm, if_true, if_false, Bool.false_eq_true]
  · intro h
    have hspec := espeakStep_spec env text (msAfter env fs).2
    rw [h] at hspec
    exact and_chain hspec.symm
  · intro _
    have hspec := msAfter_spec env fs
    rw [hm] at hspec
    exact and_chain hspec.symm

/-- Success after the pyttsx3 stage implies the wav artifact passes the
size check at that point. -/
theorem py3After_check (env : TTSEnv) (text : String) (fs : FS) :
    (py3After env text fs).1 = true →
      checkWav (py3After env text fs).2 env.wavName = true := by
  unfold py3After
  cases he : (espeakAfter env text fs).1 <;>
    simp only [he, if_true, if_false, Bool.false_eq_true]
  · intro h
    have hspec := py3Step_spec env (espeakAfter env text fs).2
    rw [h] at hspec
    exact and_chain hspec.symm
  · intro _
    exact espeakAfter_check env text fs he

/-- Field-level description of `speak_text` on non-empty text, used to
relate the returned record to the staged chain. -/
theorem speak_text_fields (env : TTSEnv) (text lang : String) (fs : FS)
    (htext : text ≠ "") :
    (speak_text env text lang fs).espeakAttempted = !(msAfter env fs).1 ∧
    (speak_text env text lang fs).py3Attempted =
      (!(msAfter env fs).1 && !(espeakAfter env text fs).1) ∧
    (speak_text env text lang fs).synthSuccess = (py3After env text fs).1 ∧
    (speak_text env text lang fs).ret =
      some ((py3After env text fs).1 && !env.playRaises) ∧
    (speak_text env text lang fs).printedFallback =
      (if ((py3After env text fs).1 && !env.playRaises) = true then none
       else some (lang, text)) ∧
    (speak_text env text lang fs).fs =
      fsRemove (py3After env text fs).2 env.wavName := by
  simp [speak_text, htext]

/-- C5: backend success detection in `speak_text` is by artifact check,
not backend word.  Conjuncts: each stage reports success only if the
wav artifact exists above the threshold at that point (1-3); a backend
run that raised no exception (for eSpeak: also exited with code 0) but
left an under-threshold artifact is treated as failed and the next
backend in order is attempted (4-5); after a failed pyttsx3 stage the
chain reports no synthesis success (6); and a reported synthesis
success always comes with a passing artifact (7). -/
theorem speak_text_verifies_artifacts (env : TTSEnv) (text lang : String)
    (fs : FS) (htext : text ≠ "") :
    ((msAfter env fs).1 = true → checkWav (msAfter env fs).2 env.wavName = true) ∧
    ((espeakAfter env text fs).1 = true →
      checkWav (espeakAfter env text fs).2 env.wavName = true) ∧
    ((py3After env text fs).1 = true →
      checkWav (py3After env text fs).2 env.wavName = true) ∧
    (env.sapiRaises = false → checkWav (msAfter env fs).2 env.wavName = false →
      (speak_text env text lang fs).espeakAttempted = true) ∧
    ((msAfter env fs).1 = false → env.espeakRunRaises = false → env.espeakRC = 0 →
      checkWav (espeakAfter env text fs).2 env.wavName = false →
      (speak_text env text lang fs).py3Attempted = true) ∧
    ((py3After env text fs).1 = false →
      (speak_text env text lang fs).synthSuccess = false) ∧
    ((speak_text env text lang fs).synthSuccess = true →
      checkWav (py3After env text fs).2 env.wavName = true) := by
  obtain ⟨h1, h2, h3, h4, h5, h6⟩ := speak_text_fields env text lang fs htext
  refine ⟨?_, espeakAfter_check env text fs, py3After_check env text fs,
    ?_, ?_, ?_, ?_⟩
  · intro h
    have hspec := msAfter_spec env fs
    rw [h] at hspec
    exact and_chain hspec.symm
  · intro hsr hbad
    have hspec := msAfter_spec env fs
    rw [hsr, hbad] at hspec
    simp only [Bool.not_false, Bool.and_false] at hspec
    rw [h1, hspec]
    rfl
  · intro hm her hrc hbad
    have hea : espeakAfter env text fs = espeakStep env text (msAfter env fs).2 := by
      simp only [espeakAfter]
      rw [hm]
      simp
    have hspec := espeakStep_spec env text (msAfter env fs).2
    rw [← hea, hbad, her, hrc] at hspec
    simp only [Bool.not_false, Bool.and_false, Bool.true_and, beq_self_eq_true] at hspec
    rw [h2, hm, hspec]
    rfl
  · intro hp
    rw [h3, hp]
  · intro hp
    rw [h3] at hp
    exact py3After_check env text fs hp

/-- Synthesis environment in which the Microsoft attempt reports no
exception but writes nothing, eSpeak runs cleanly and writes a
2000-byte wav, and pyttsx3 is irrelevant. -/
def envW : TTSEnv :=
  { wavName := "w0.wav", txtName := "w1.txt",
    sapiRaises := false, sapiWrites := none,
    espeakRunRaises := false, espeakRC := 0, espeakWrites := some 2000,
    py3Raises := true, py3Writes := none, playRaises := false }

/-- C5 witness: on `envW` the Microsoft backend raised no error yet
left no passing artifact, and the orchestrator goes on to attempt
eSpeak. -/
theorem speak_text_verifies_artifacts_witness :
    ("hi" : String) ≠ "" ∧ envW.sapiRaises = false ∧
    checkWav (msAfter envW []).2 envW.wavName = false ∧
    (speak_text envW "hi" "en" []).espeakAttempted = true :=
  ⟨by decide, rfl, by decide,
    (speak_text_verifies_artifacts envW "hi" "en" [] (by decide)).2.2.2.1
      rfl (by decide)⟩

/-- C7: when every synthesis backend has failed, `speak_text` still
returns normally with the non-success value `False` and emits the
visible textual fallback carrying the text and language (app.py lines
326-330); no error reaches the caller. -/
theorem speak_text_degrades_gracefully (env : TTSEnv) (text lang : String)
    (fs : FS) (htext : text ≠ "")
    (hms : (msAfter env fs).1 = false)
    (hesp : (espeakAfter env text fs).1 = false)
    (hpy : (py3After env text fs).1 = false) :
    (speak_text env text lang fs).ret = some false ∧
    (speak_text env text lang fs).printedFallback = some (lang, text) := by
  obtain ⟨h1, h2, h3, h4, h5, h6⟩ := speak_text_fields env text lang fs htext
  rw [h4, h5, hpy]
  simp

/-- Synthesis environment in which every backend fails: the Microsoft
attempt raises internally, the eSpeak process exits nonzero, and the
pyttsx3 engine raises. -/
def envAllFailTTS : TTSEnv :=
  { wavName := "f0.wav", txtName := "f1.txt",
    sapiRaises := true, sapiWrites := none,
    espeakRunRaises := false, espeakRC := 1, espeakWrites := none,
    py3Raises := true, py3Writes := none, playRaises := false }

/-- C7 witness: graceful degradation evaluated on `envAllFailTTS`. -/
theorem speak_text_degrades_gracefully_witness :
    (speak_text envAllFailTTS "hallo" "de" []).ret = some false ∧
    (speak_text envAllFailTTS "hallo" "de" []).printedFallback =
      some ("de", "hallo") :=
  speak_text_degrades_gracefully envAllFailTTS "hallo" "de" []
    (by decide) (by decide) (by decide) (by decide)

/-- Synthesis environment exhibiting the temp-file leak: the Microsoft
attempt raises internally, the eSpeak `subprocess.run` call itself
raises (so the `os.unlink` of the text file at app.py line 255 never
runs), and pyttsx3 raises. -/
def envLeak : TTSEnv :=
  { wavName := "tmp0.wav", txtName := "tmp1.txt",
    sapiRaises := true, sapiWrites := none,
    espeakRunRaises := true, espeakRC := 0, espeakWrites := none,
    py3Raises := true, py3Writes := none, playRaises := false }

/-- C1: evaluating `speak_text` at an input where the eSpeak subprocess
invocation raises an exception shows the intermediate text temp file
surviving the call: the filesystem is empty before the call and still
holds the text file `tmp1.txt` when the function returns, so the
temp-file count is 0 before and 1 after.  The wav temp file itself is
removed by the cleanup of lines 318-323, but that block never removes
the text file, whose only unlink (line 255) sits on the non-raising
path of the eSpeak branch. -/
theorem speak_text_leaks_text_file_on_espeak_exception :
    (speak_text envLeak "hi" "en" []).fs = [("tmp1.txt", 2)] ∧
    (speak_text envLeak "hi" "en" []).ret = some false := by
  decide

/-! Theorems about the `/translate` route handler. -/

/-- Request environment with the recognition model present and loading,
but no translation capability installed at all. -/
def envRoute2 : RouteEnv :=
  { sourceName := "English", targetName := "Hindi",
    modelFileExists := fun _ => true, modelLoadOk := true, modelLoadErr := "",
    recognized := "hello",
    tenv := { installed := [], tr := fun _ _ _ => .error "x" },
    senv := envAllFailTTS, fs := [] }

/-- C2 counterexample: with both translation capabilities missing but
the recognition model present, the handler still captures audio and
recognizes speech — the missing-capability response even carries the
recognized text — contradicting the claim that capture never starts
before the translation capabilities are validated. -/
theorem translate_route_captures_before_capability_check_cex :
    (translate_route envRoute2).captured = true ∧
    (translate_route envRoute2).resp =
      .missingModels "Missing translation models for: English (en), Hindi (hi)"
        "hello" ["English (en)", "Hindi (hi)"] := by
  decide

/-- C2 (amended): the handler validates the recognition capability
(model directory present, model loads) before any capture — capture
implies both recognition checks passed — but the translation
capabilities are checked only after capture and recognition: when
either side is missing it returns, after capturing, a structured
missing-capability response naming exactly the missing sides together
with the recognized text, and invokes no translation capability and no
synthesis backend. -/
theorem translate_route_validation_order (env : RouteEnv) (sc tc mp : String)
    (hsc : lookupTbl LANGUAGES env.sourceName = some sc)
    (htc : lookupTbl LANGUAGES env.targetName = some tc)
    (hmp : lookupTbl MODEL_PATHS sc = some mp) :
    ((translate_route env).captured = true →
      env.modelFileExists mp = true ∧ env.modelLoadOk = true) ∧
    (env.modelFileExists mp = true → env.modelLoadOk = true →
      ¬ (sc ∈ env.tenv.installed ∧ tc ∈ env.tenv.installed) →
      (translate_route env).captured = true ∧
      (translate_route env).resp = .missingModels
        ("Missing translation models for: " ++
          String.intercalate ", " (missingList env sc tc))
        env.recognized (missingList env sc tc) ∧
      (translate_route env).transCalls = [] ∧
      (translate_route env).speakOut = none) := by
  constructor
  · intro hcap
    cases hf : env.modelFileExists mp <;> cases hl : env.modelLoadOk
    · simp only [translate_route, hsc, htc, hmp, hf, hl] at hcap
      simp at hcap
    · simp only [translate_route, hsc, htc, hmp, hf, hl] at hcap
      simp at hcap
    · simp only [translate_route, hsc, htc, hmp, hf, hl] at hcap
      simp at hcap
    · exact ⟨rfl, rfl⟩
  · intro hf hl hmiss
    simp only [translate_route, hsc, htc, hmp, hf, hl, Bool.not_true,
      Bool.false_eq_true, if_false, if_neg hmiss]
    simp

/-- C2 witness: the amended validation-order statement evaluated on
`envRoute2`, where both sides are missing. -/
theorem translate_route_validation_order_witness :
    ((translate_route envRoute2).captured = true →
      envRoute2.modelFileExists "models/vosk-model-small-en-us-0.15" = true ∧
      envRoute2.modelLoadOk = true) ∧
    (envRoute2.modelFileExists "models/vosk-model-small-en-us-0.15" = true →
      envRoute2.modelLoadOk = true →
      ¬ ("en" ∈ envRoute2.tenv.installed ∧ "hi" ∈ envRoute2.tenv.installed) →
      (translate_route envRoute2).captured = true ∧
      (translate_route envRoute2).resp = .missingModels
        ("Missing translation models for: " ++
          String.intercalate ", " (missingList envRoute2 "en" "hi"))
        envRoute2.recognized (missingList envRoute2 "en" "hi") ∧
      (translate_route envRoute2).transCalls = [] ∧
      (translate_route envRoute2).speakOut = none) :=
  translate_route_validation_order envRoute2 "en" "hi"
    "models/vosk-model-small-en-us-0.15" (by decide) (by decide) (by decide)

/-- Request environment in which recognition yields the empty
utterance (silence) while both translation capabilities are present. -/
def envRoute9 : RouteEnv :=
  { sourceName := "English", targetName := "Hindi",
    modelFileExists := fun _ => true, modelLoadOk := true, modelLoadErr := "",
    recognized := "",
    tenv := { installed := ["en", "hi"], tr := fun _ _ _ => .ok "t" },
    senv := envAllFailTTS, fs := [] }

/-- C9 counterexample: on silence (empty recognized text) the response
does carry the empty recognized text and no translation capability is
invoked, but synthesis is NOT skipped: `speak_text` is called on the
placeholder string "No text recognized", and the first backend is
attempted — contradicting the claim that no synthesis backend is
invoked for such a request. -/
theorem translate_route_silence_still_synthesizes_cex :
    (translate_route envRoute9).resp = .success "" "No text recognized" ∧
    (translate_route envRoute9).transCalls = [] ∧
    ((translate_route envRoute9).speakOut.map (fun so => so.msAttempted)) =
      some true := by
  decide

/-- C9 (amended): when the recognized text is empty and both
capabilities are present, the response carries the empty recognized
text together with the placeholder translation "No text recognized";
no translation capability is invoked, but speech synthesis IS invoked
on the placeholder text (the backend chain starts, since the
placeholder is non-empty). -/
theorem translate_route_empty_recognition (env : RouteEnv) (sc tc mp : String)
    (hsc : lookupTbl LANGUAGES env.sourceName = some sc)
    (htc : lookupTbl LANGUAGES env.targetName = some tc)
    (hmp : lookupTbl MODEL_PATHS sc = some mp)
    (hf : env.modelFileExists mp = true) (hl : env.modelLoadOk = true)
    (hins : sc ∈ env.tenv.installed ∧ tc ∈ env.tenv.installed)
    (hrec : env.recognized = "") :
    (translate_route env).resp = .success "" "No text recognized" ∧
    (translate_route env).transCalls = [] ∧
    (translate_route env).speakOut =
      some (speak_text env.senv "No text recognized" tc env.fs) ∧
    ((translate_route env).speakOut.map (fun so => so.msAttempted)) =
      some true := by
  simp only [translate_route, hsc, htc, hmp, hf, hl, Bool.not_true,
    Bool.false_eq_true, if_false, if_pos hins, hrec]
  simp only [translate_text, if_pos rfl]
  refine ⟨rfl, rfl, rfl, ?_⟩
  simp [speak_text]

/-- C9 witness: the amended empty-recognition statement evaluated on
`envRoute9`. -/
theorem translate_route_empty_recognition_witness :
    (translate_route envRoute9).resp = .success "" "No text recognized" ∧
    (translate_route envRoute9).transCalls = [] ∧
    (translate_route envRoute9).speakOut =
      some (speak_text envRoute9.senv "No text recognized" "hi" envRoute9.fs) ∧
    ((translate_route envRoute9).speakOut.map (fun so => so.msAttempted)) =
      some true :=
  translate_route_empty_recognition envRoute9 "en" "hi"
    "models/vosk-model-small-en-us-0.15" (by decide) (by decide) (by decide)
    rfl rfl (by decide) rfl

end App
